import Mathlib

set_option autoImplicit false
set_option maxRecDepth 20000

/-!
Shallow embedding of the ShadowChronicles interactive-fiction engine:
the command parser (`CommandParser.parse`) and the game-engine command
router and handlers (`GameEngine`).  JavaScript records keyed by strings
are modelled as association lists (`List (String × _)`) whose lookup,
update and delete operations mirror JavaScript object semantics
(first-occurrence lookup, in-place update, keyed delete).  JavaScript
string truthiness (`""` is falsy) is modelled explicitly wherever the
source relies on it.
-/

/-- Whitespace recognizer for tokenization (JS `\s` on the ASCII range). -/
def isWs (c : Char) : Bool := c = ' ' || c = '\t' || c = '\n' || c = '\r'

/-- Accumulating splitter: groups maximal runs of non-whitespace characters. -/
def tokenizeAux : List Char → List Char → List String
  | [], [] => []
  | [], cur => [String.mk cur.reverse]
  | c :: cs, cur =>
    if isWs c then
      if cur.isEmpty then tokenizeAux cs []
      else String.mk cur.reverse :: tokenizeAux cs []
    else tokenizeAux cs (c :: cur)

/-- JS `input.split(/\s+/).filter(t => t.length > 0)`. -/
def tokenize (s : String) : List String := tokenizeAux s.data []

/-- JS `String.prototype.toLowerCase` (ASCII-adequate). -/
def lowerStr (s : String) : String := String.mk (s.data.map Char.toLower)

/-- JS `String.prototype.trim`. -/
def trimWs (s : String) : String :=
  String.mk (((s.data.dropWhile isWs).reverse.dropWhile isWs).reverse)

/-- JS `s.startsWith(p)`. -/
def strStartsWith (s p : String) : Bool := p.data.isPrefixOf s.data

/-- Scan for `needle` as a contiguous sublist. -/
def includesAux (needle : List Char) : List Char → Bool
  | [] => needle.isEmpty
  | c :: t => needle.isPrefixOf (c :: t) || includesAux needle t

/-- JS `hay.includes(sub)`. -/
def strIncludes (hay sub : String) : Bool := includesAux sub.data hay.data

/-- JS `Array.prototype.join(sep)`. -/
def joinWith (sep : String) : List String → String
  | [] => ""
  | [s] => s
  | s :: t => s ++ sep ++ joinWith sep t

/-- JS `s || d` for strings (empty string is falsy). -/
def strOr (s d : String) : String := if s = "" then d else s

/-- JS `o || d` where `o` may be `undefined`/`null` or an empty string. -/
def optStrOr (o : Option String) (d : String) : String :=
  match o with
  | some s => strOr s d
  | none => d

/-- Read an optional string the way JS reads a possibly-undefined field:
`undefined` behaves like the falsy empty string in the guards the engine uses. -/
def jsStr (o : Option String) : String := o.getD ""

/-- JS `s || undefined`: an empty string collapses to an absent field. -/
def strToOpt (s : String) : Option String := if s = "" then none else some s

/-- Association-list lookup (JS property read / `Map.get`). -/
def alGet {α : Type} : List (String × α) → String → Option α
  | [], _ => none
  | (k, v) :: t, key => if k = key then some v else alGet t key

/-- Lookup with a default (JS `obj[key] || d`). -/
def alGetD {α : Type} (l : List (String × α)) (key : String) (d : α) : α :=
  (alGet l key).getD d

/-- Association-list write (JS property assignment / `Map.set`):
updates an existing key in place, else appends. -/
def alSet {α : Type} : List (String × α) → String → α → List (String × α)
  | [], key, v => [(key, v)]
  | (k, w) :: t, key, v => if k = key then (k, v) :: t else (k, w) :: alSet t key v

/-- Association-list delete (JS `delete obj[key]`). -/
def alErase {α : Type} : List (String × α) → String → List (String × α)
  | [], _ => []
  | (k, w) :: t, key => if k = key then t else (k, w) :: alErase t key

/-! ## Command parser (`src` CommandParser) -/

/-- The verb-synonym table, in source order. -/
def VERB_SYNONYMS : List (String × String) :=
  [("go", "go"), ("walk", "go"), ("run", "go"), ("move", "go"),
   ("travel", "go"), ("head", "go"),
   ("n", "go north"), ("north", "go north"),
   ("s", "go south"), ("south", "go south"),
   ("e", "go east"), ("east", "go east"),
   ("w", "go west"), ("west", "go west"),
   ("u", "go up"), ("up", "go up"),
   ("d", "go down"), ("down", "go down"),
   ("enter", "go"), ("exit", "go"),
   ("climb", "climb"), ("jump", "jump"), ("swim", "swim"), ("dive", "dive"),
   ("look", "look"), ("l", "look"),
   ("examine", "examine"), ("x", "examine"), ("inspect", "examine"),
   ("read", "read"), ("search", "search"), ("listen", "listen"),
   ("smell", "smell"), ("taste", "taste"),
   ("take", "take"), ("get", "take"), ("grab", "take"), ("pick", "take"),
   ("pickup", "take"),
   ("drop", "drop"), ("leave", "drop"),
   ("put", "put"), ("place", "put"), ("insert", "insert"), ("remove", "remove"),
   ("wear", "equip"), ("equip", "equip"), ("wield", "equip"),
   ("unequip", "unequip"), ("unwield", "unequip"), ("doff", "unequip"),
   ("open", "open"), ("close", "close"), ("shut", "close"),
   ("lock", "lock"), ("unlock", "unlock"),
   ("push", "push"), ("pull", "pull"),
   ("turn", "turn"), ("rotate", "turn"),
   ("break", "break"), ("smash", "break"),
   ("hit", "attack"), ("attack", "attack"), ("fight", "attack"),
   ("kill", "attack"), ("stab", "attack"), ("strike", "attack"),
   ("touch", "touch"), ("rub", "rub"),
   ("use", "use"), ("light", "light"), ("extinguish", "extinguish"),
   ("burn", "burn"), ("pour", "pour"), ("fill", "fill"),
   ("drink", "drink"), ("eat", "eat"),
   ("throw", "throw"), ("toss", "throw"),
   ("raise", "raise"), ("lower", "lower"),
   ("ring", "ring"), ("knock", "knock"), ("press", "press"), ("wave", "wave"),
   ("tie", "tie"), ("untie", "untie"),
   ("say", "say"), ("speak", "say"),
   ("shout", "shout"), ("yell", "shout"),
   ("ask", "ask"), ("tell", "tell"), ("talk", "talk"), ("pray", "pray"),
   ("cast", "cast"),
   ("think", "think"), ("wait", "wait"), ("z", "wait"),
   ("sleep", "sleep"), ("rest", "rest"),
   ("inventory", "inventory"), ("i", "inventory"), ("inv", "inventory"),
   ("help", "help"), ("?", "help"),
   ("save", "save"), ("load", "load"), ("restore", "load"),
   ("quit", "quit"), ("q", "quit"),
   ("restart", "restart"), ("reset", "restart"),
   ("status", "status"), ("stats", "status"),
   ("score", "score"), ("map", "map"), ("hint", "hint"), ("hints", "hint")]

/-- Prepositions that can appear in commands. -/
def PREPOSITIONS : List String :=
  ["in", "into", "on", "onto", "with", "using", "to", "at",
   "from", "off", "under", "behind", "through", "about", "around"]

/-- Articles to strip from input. -/
def ARTICLES : List String := ["a", "an", "the", "some", "my"]

/-- The parser's structured result. -/
structure ParsedCommand where
  verb : String
  noun : Option String := none
  preposition : Option String := none
  indirectObject : Option String := none
  raw : String
  valid : Bool
  errorMessage : Option String := none
deriving Repr, DecidableEq

/-- Left-to-right scan for the first token belonging to `PREPOSITIONS`,
returning its index (offset by the accumulator) and the token. -/
def findPrep : List String → Nat → Option (Nat × String)
  | [], _ => none
  | t :: rest, i => if PREPOSITIONS.contains t then some (i, t) else findPrep rest (i + 1)

/-- `CommandParser.parse`. -/
def parse (input : String) : ParsedCommand :=
  let normalized := trimWs (lowerStr input)
  if normalized = "" then
    { verb := "", raw := input, valid := false,
      errorMessage := some "Please enter a command." }
  else
    match tokenize normalized with
    | [] =>
      { verb := "", raw := input, valid := false,
        errorMessage := some "I don't understand that." }
    | firstToken :: rest =>
      match alGet VERB_SYNONYMS firstToken with
      | none =>
        { verb := firstToken, raw := input, valid := false,
          errorMessage := some ("I don't know how to \"" ++ firstToken ++ "\".") }
      | some canonicalVerb =>
        if strStartsWith canonicalVerb "go " then
          { verb := "go", noun := some ((tokenize canonicalVerb).getD 1 ""),
            raw := input, valid := true }
        else if rest.isEmpty then
          { verb := canonicalVerb, raw := input, valid := true }
        else
          let objectTokens := rest.filter (fun t => !ARTICLES.contains t)
          if objectTokens.isEmpty then
            { verb := canonicalVerb, raw := input, valid := true }
          else
            match findPrep objectTokens 0 with
            | some (i, p) =>
              if 0 < i then
                { verb := canonicalVerb,
                  noun := strToOpt (joinWith " " (objectTokens.take i)),
                  preposition := some p,
                  indirectObject := strToOpt (joinWith " " (objectTokens.drop (i + 1))),
                  raw := input, valid := true }
              else
                { verb := canonicalVerb,
                  noun := strToOpt (joinWith " " (objectTokens.drop 1)),
                  preposition := some p,
                  raw := input, valid := true }
            | none =>
              { verb := canonicalVerb,
                noun := strToOpt (joinWith " " objectTokens),
                raw := input, valid := true }

/-! ## World data model (shared types) -/

/-- Player base statistics. -/
structure PlayerStats where
  Physical : Int
  Mental : Int
  Resilience : Int
deriving Repr, DecidableEq

/-- JS dynamic read `player.stats[id]`: `undefined` for an unknown stat name. -/
def statGet (stats : PlayerStats) (id : String) : Option Int :=
  if id = "Physical" then some stats.Physical
  else if id = "Mental" then some stats.Mental
  else if id = "Resilience" then some stats.Resilience
  else none

/-- Inventory entry. -/
structure InventoryItem where
  id : String
  name : String
  description : String
  quantity : Int
  equippable : Bool
  equipmentSlot : Option String := none
  usable : Bool
  weight : Int
deriving Repr, DecidableEq

/-- Player state.  `equippedItems` and `flags` are JS records modelled as
association lists; `statusEffects` entries are opaque to the embedded code. -/
structure PlayerState where
  name : String
  gold : Int
  hp : Int
  maxHp : Int
  mp : Int
  maxMp : Int
  xp : Int
  level : Int
  stats : PlayerStats
  inventory : List InventoryItem
  equippedItems : List (String × String)
  statusEffects : List String
  skills : List String
  location : String
  notes : List String
  visitedRooms : List String
  flags : List (String × Bool)
deriving Repr, DecidableEq

structure RoomIdentity where
  id : String
  canonicalName : String := ""
deriving Repr, DecidableEq

structure RoomDescriptions where
  initial : String
  long : String
  short : String
  visited : String
  dark : String
  dynamicVariants : List (String × String) := []
deriving Repr, DecidableEq

structure RoomLighting where
  isLit : Bool
deriving Repr, DecidableEq

structure ExitRequires where
  type : String
  id : String
  value : Option Int := none
deriving Repr, DecidableEq

structure RoomExit where
  «to» : String
  visible : Bool
  oneWay : Bool := false
  requires : Option ExitRequires := none
  blockedMessage : Option String := none
  travelText : String := ""
deriving Repr, DecidableEq

structure RoomObject where
  id : String
  name : String
  synonyms : Option (List String) := none
  description : String
  visibility : String
  requiresLight : Bool := false
  takeable : Bool := false
  taken : Bool := false
  examineText : String := ""
  equipmentSlot : Option String := none
  stateChanges : Option (List (String × String)) := none
deriving Repr, DecidableEq

structure RoomNPC where
  id : String
  name : String
  description : String
  hostile : Bool
  spawnConditions : List String
deriving Repr, DecidableEq

/-- A room: the fields the engine reads.  `state` is the mutable per-room
boolean flag record. -/
structure Room where
  identity : RoomIdentity
  descriptions : RoomDescriptions
  lighting : RoomLighting
  exits : List (String × RoomExit)
  objects : List RoomObject
  npcs : List RoomNPC
  state : List (String × Bool)
deriving Repr, DecidableEq

structure GameConfig where
  maxInventoryWeight : Int
  baseHp : Int
  baseMp : Int
  xpPerLevel : Int
  deathHpPenalty : Int
  deathMpPenalty : Int
  restHpRecovery : Int
  restMpRecovery : Int
deriving Repr, DecidableEq

def DEFAULT_CONFIG : GameConfig :=
  { maxInventoryWeight := 100, baseHp := 100, baseMp := 50, xpPerLevel := 1000,
    deathHpPenalty := 20, deathMpPenalty := 10,
    restHpRecovery := 25, restMpRecovery := 15 }

/-- A session: one player's live state plus transient combat context. -/
structure GameSession where
  player : PlayerState
  inCombat : Bool
  currentEnemy : Option String := none
deriving Repr, DecidableEq

/-- The engine's own mutable state: the room store and the global world flags. -/
structure Engine where
  rooms : List (String × Room)
  config : GameConfig
  worldState : List (String × Bool)
deriving Repr, DecidableEq

structure CommandResult where
  success : Bool
  message : String
  roomChanged : Bool := false
  combatTriggered : Bool := false
deriving Repr, DecidableEq

/-- A handler step: the engine and session after the call, plus its result.
JS handlers mutate `this` and `session` in place; the embedding threads both. -/
structure StepResult where
  engine : Engine
  session : GameSession
  result : CommandResult
deriving Repr, DecidableEq

/-- Failure result leaving the given engine/session as the post-state. -/
def failRes (e : Engine) (s : GameSession) (msg : String) : StepResult :=
  ⟨e, s, { success := false, message := msg }⟩

/-! ## GameEngine: queries and helpers -/

/-- `GameEngine.createNewPlayer`. -/
def createNewPlayer (config : GameConfig) (name startingRoom : String) : PlayerState :=
  { name := name, gold := 0,
    hp := config.baseHp, maxHp := config.baseHp,
    mp := config.baseMp, maxMp := config.baseMp,
    xp := 0, level := 1,
    stats := { Physical := 10, Mental := 10, Resilience := 10 },
    inventory := [], equippedItems := [], statusEffects := [], skills := [],
    location := startingRoom, notes := [], visitedRooms := [], flags := [] }

def getRoom (e : Engine) (roomId : String) : Option Room := alGet e.rooms roomId

def getCurrentRoom (e : Engine) (s : GameSession) : Option Room :=
  alGet e.rooms s.player.location

/-- `GameEngine.hasLight`: the room is naturally lit, or the item equipped in
the `light_source` slot has its `<itemId>_on` player flag set. -/
def hasLight (room : Room) (player : PlayerState) : Bool :=
  if room.lighting.isLit then true
  else
    match alGet player.equippedItems "light_source" with
    | some lightId =>
      if lightId = "" then false
      else alGetD player.flags (lightId ++ "_on") false
    | none => false

/-- `GameEngine.checkNpcSpawnConditions`. -/
def checkNpcSpawnConditions (conditions : List String) (room : Room)
    (player : PlayerState) : Bool :=
  match conditions with
  | [] => true
  | c :: rest =>
    if c = "darkness" then
      if hasLight room player then false
      else checkNpcSpawnConditions rest room player
    else if c = "light_present" then
      if !hasLight room player then false
      else checkNpcSpawnConditions rest room player
    else checkNpcSpawnConditions rest room player

/-- Object match used by look/take/light/extinguish/unequip:
exact id, case-insensitive name containment, or synonym containment. -/
def objMatches (o : RoomObject) (noun : String) : Bool :=
  o.id = noun || strIncludes (lowerStr o.name) (lowerStr noun) ||
    (o.synonyms.getD []).any (fun syn => strIncludes (lowerStr syn) (lowerStr noun))

/-- Inventory match used by drop/use/equip: exact id or name containment. -/
def invMatches (i : InventoryItem) (noun : String) : Bool :=
  i.id = noun || strIncludes (lowerStr i.name) (lowerStr noun)

/-- NPC match used by look. -/
def npcMatches (n : RoomNPC) (noun : String) : Bool :=
  n.id = noun || strIncludes (lowerStr n.name) (lowerStr noun)

/-! ## Room description assembly -/

/-- Base description variant selection (`GameEngine.getRoomDescription`,
lit branch, before dynamic variants). -/
def selectVariant (room : Room) (player : PlayerState) (verbose : Bool)
    (hl : Bool) : String :=
  let visited := player.visitedRooms.contains room.identity.id
  if !room.lighting.isLit && hl then room.descriptions.long
  else if verbose || !visited then
    (if visited then room.descriptions.long else room.descriptions.initial)
  else strOr room.descriptions.visited room.descriptions.short

/-- First dynamic variant whose backing room-state flag is truthy. -/
def firstDynamic (entries : List (String × String))
    (state : List (String × Bool)) : Option String :=
  match entries with
  | [] => none
  | (variant, text) :: rest =>
    if alGetD state variant false then some text else firstDynamic rest state

/-- Untaken objects that are always-visible or conditionally visible with
their light requirement satisfied. -/
def visibleObjects (room : Room) (hl : Bool) : List RoomObject :=
  room.objects.filter (fun obj =>
    !obj.taken &&
      (obj.visibility = "always" ||
        (obj.visibility = "conditional" && (!obj.requiresLight || hl))))

def visibleExitDirections (room : Room) : List String :=
  (room.exits.filter (fun p => p.2.visible)).map (fun p => p.1)

def spawnedNpcs (room : Room) (player : PlayerState) : List RoomNPC :=
  room.npcs.filter (fun npc => checkNpcSpawnConditions npc.spawnConditions room player)

/-- `GameEngine.getRoomDescription`. -/
def getRoomDescription (room : Room) (player : PlayerState)
    (verbose : Bool := false) : String :=
  let hl := hasLight room player
  if !hl then room.descriptions.dark
  else
    let base := selectVariant room player verbose hl
    let description := (firstDynamic room.descriptions.dynamicVariants room.state).getD base
    let vo := visibleObjects room hl
    let d2 :=
      if vo.length > 0 then
        description ++ "\n\nYou can see: " ++ joinWith ", " (vo.map (fun o => o.name))
      else description
    let ve := visibleExitDirections room
    let d3 :=
      if ve.length > 0 && hl then d2 ++ "\n\nExits: " ++ joinWith ", " ve else d2
    (spawnedNpcs room player).foldl (fun acc npc => acc ++ "\n\n" ++ npc.description) d3

/-! ## Exit gate -/

structure ExitCheck where
  allowed : Bool
  message : Option String := none
deriving Repr, DecidableEq

/-- `GameEngine.canUseExit`. -/
def canUseExit (e : Engine) (ex : RoomExit) (player : PlayerState) : ExitCheck :=
  match ex.requires with
  | none => { allowed := true }
  | some req =>
    if req.type = "item" then
      if player.inventory.any (fun item => item.id = req.id) then { allowed := true }
      else { allowed := false,
             message := some (optStrOr ex.blockedMessage "You can't go that way.") }
    else if req.type = "state" then
      if alGetD e.worldState req.id false then { allowed := true }
      else { allowed := false,
             message := some (optStrOr ex.blockedMessage "The way is blocked.") }
    else if req.type = "skill" then
      if player.skills.contains req.id then { allowed := true }
      else { allowed := false,
             message := some (optStrOr ex.blockedMessage "You lack the required skill.") }
    else if req.type = "stat" then
      match statGet player.stats req.id with
      | some sv =>
        if sv < req.value.getD 0 then
          { allowed := false,
            message := some (optStrOr ex.blockedMessage "You're not capable of that.") }
        else { allowed := true }
      | none => { allowed := true }
    else { allowed := true }

/-! ## Command handlers -/

/-- `GameEngine.handleLook` (also `handleExamine`, which delegates to it).
Examining an object whose `stateChanges.ability_learned` names an unset
room-state flag sets that flag and teaches the skill once. -/
def handleLook (e : Engine) (s : GameSession) (cmd : ParsedCommand) : StepResult :=
  match getCurrentRoom e s with
  | none => failRes e s "Error: You are nowhere."
  | some room =>
    let noun := jsStr cmd.noun
    if noun ≠ "" then
      match room.objects.find? (fun o => objMatches o noun) with
      | some obj =>
        let ability := jsStr (match obj.stateChanges with
                              | some sc => alGet sc "ability_learned"
                              | none => none)
        let msg := strOr obj.examineText obj.description
        if ability ≠ "" && !(alGetD room.state ability false) then
          let room2 := { room with state := alSet room.state ability true }
          let e2 := { e with rooms := alSet e.rooms s.player.location room2 }
          if !(s.player.skills.contains ability) then
            let p := { s.player with skills := s.player.skills ++ [ability] }
            ⟨e2, { s with player := p }, { success := true, message := msg }⟩
          else ⟨e2, s, { success := true, message := msg }⟩
        else ⟨e, s, { success := true, message := msg }⟩
      | none =>
        match room.npcs.find? (fun n => npcMatches n noun) with
        | some npc => ⟨e, s, { success := true, message := npc.description }⟩
        | none => failRes e s ("You don't see any \"" ++ noun ++ "\" here.")
    else
      ⟨e, s, { success := true, message := getRoomDescription room s.player true }⟩

/-- `GameEngine.handleGo`. -/
def handleGo (e : Engine) (s : GameSession) (cmd : ParsedCommand) : StepResult :=
  match getCurrentRoom e s with
  | none => failRes e s "Error: You are nowhere."
  | some room =>
    let direction := lowerStr (jsStr cmd.noun)
    if direction = "" then failRes e s "Go where?"
    else
      match alGet room.exits direction with
      | none => failRes e s "You can't go that way."
      | some ex =>
        let canPass := canUseExit e ex s.player
        if !canPass.allowed then failRes e s (jsStr canPass.message)
        else
          let previousRoom := s.player.location
          let p1 := { s.player with location := ex.«to» }
          let p2 := if p1.visitedRooms.contains ex.«to» then p1
                    else { p1 with visitedRooms := p1.visitedRooms ++ [ex.«to»] }
          match getRoom e ex.«to» with
          | none =>
            failRes e { s with player := { p2 with location := previousRoom } }
              "Error: That room doesn't exist."
          | some newRoom =>
            let msg :=
              (if ex.travelText = "" then "" else ex.travelText ++ "\n\n") ++
                getRoomDescription newRoom p2
            match newRoom.npcs.find? (fun npc =>
                npc.hostile && checkNpcSpawnConditions npc.spawnConditions newRoom p2) with
            | some hostileNpc =>
              ⟨e, { s with player := p2, inCombat := true,
                           currentEnemy := some hostileNpc.id },
                { success := true,
                  message := msg ++ "\n\n**" ++ hostileNpc.name ++ " attacks!**",
                  roomChanged := true, combatTriggered := true }⟩
            | none =>
              ⟨e, { s with player := p2 },
                { success := true, message := msg, roomChanged := true }⟩

/-- The take-handler's object predicate: takeable, untaken, matching. -/
def takePred (noun : String) (o : RoomObject) : Bool :=
  o.takeable && !o.taken && objMatches o noun

/-- Mark the first object satisfying `pred` as taken (JS mutates the found
object instance in place). -/
def setTakenFirst (pred : RoomObject → Bool) : List RoomObject → List RoomObject
  | [] => []
  | o :: rest =>
    if pred o then { o with taken := true } :: rest
    else o :: setTakenFirst pred rest

/-- The inventory entry `handleTake` constructs from a room object. -/
def mkTakenItem (obj : RoomObject) : InventoryItem :=
  { id := obj.id, name := obj.name, description := obj.description, quantity := 1,
    equippable := obj.equipmentSlot.isSome, equipmentSlot := obj.equipmentSlot,
    usable := true, weight := 1 }

/-- `GameEngine.handleTake`. -/
def handleTake (e : Engine) (s : GameSession) (cmd : ParsedCommand) : StepResult :=
  match getCurrentRoom e s with
  | none => failRes e s "Error: You are nowhere."
  | some room =>
    let noun := jsStr cmd.noun
    if noun = "" then failRes e s "Take what?"
    else
      match room.objects.find? (takePred noun) with
      | none => failRes e s ("You can't take \"" ++ noun ++ "\".")
      | some obj =>
        if obj.taken then failRes e s "You've already taken that."
        else
          let p := { s.player with inventory := s.player.inventory ++ [mkTakenItem obj] }
          let room2 := { room with objects := setTakenFirst (takePred noun) room.objects }
          let e2 := { e with rooms := alSet e.rooms s.player.location room2 }
          ⟨e2, { s with player := p },
            { success := true, message := "You take the " ++ obj.name ++ "." }⟩

/-- Remove the first element satisfying `pred` (JS `splice` at the found index). -/
def removeFirst {α : Type} (pred : α → Bool) : List α → List α
  | [] => []
  | x :: t => if pred x then t else x :: removeFirst pred t

/-- `GameEngine.handleDrop`: inventory-only removal. -/
def handleDrop (e : Engine) (s : GameSession) (cmd : ParsedCommand) : StepResult :=
  let noun := jsStr cmd.noun
  if noun = "" then failRes e s "Drop what?"
  else
    match s.player.inventory.find? (fun i => invMatches i noun) with
    | none => failRes e s ("You don't have \"" ++ noun ++ "\".")
    | some item =>
      let p := { s.player with
                 inventory := removeFirst (fun i => invMatches i noun) s.player.inventory }
      ⟨e, { s with player := p },
        { success := true, message := "You drop the " ++ item.name ++ "." }⟩

def invLine (item : InventoryItem) : String :=
  "  - " ++ item.name ++
    (if item.quantity > 1 then " (x" ++ toString item.quantity ++ ")" else "")

/-- `GameEngine.handleInventory`. -/
def handleInventory (e : Engine) (s : GameSession) : StepResult :=
  if s.player.inventory.isEmpty then
    ⟨e, s, { success := true, message := "You are carrying nothing." }⟩
  else
    ⟨e, s, { success := true,
             message := "You are carrying:\n" ++
               joinWith "\n" (s.player.inventory.map invLine) }⟩

/-- `GameEngine.handleUse`. -/
def handleUse (e : Engine) (s : GameSession) (cmd : ParsedCommand) : StepResult :=
  let noun := jsStr cmd.noun
  if noun = "" then failRes e s "Use what?"
  else
    match s.player.inventory.find? (fun i => invMatches i noun) with
    | none => failRes e s ("You don't have \"" ++ noun ++ "\".")
    | some item =>
      if !item.usable then failRes e s ("You can't use the " ++ item.name ++ ".")
      else ⟨e, s, { success := true, message := "You use the " ++ item.name ++ "." }⟩

/-- Does the id equipped in the `light_source` slot match the command noun,
resolved against the static object definitions of every loaded room? -/
def matchesEquippedLight (e : Engine) (lightId noun : String) : Bool :=
  e.rooms.any (fun pr => pr.2.objects.any (fun o => o.id = lightId && objMatches o noun))

/-- `GameEngine.handleLight`. -/
def handleLight (e : Engine) (s : GameSession) (cmd : ParsedCommand) : StepResult :=
  let noun := jsStr cmd.noun
  if noun = "" then failRes e s "Light what?"
  else
    let equippedLightId := jsStr (alGet s.player.equippedItems "light_source")
    if equippedLightId = "" then
      failRes e s "You need to equip a light source first before you can turn it on."
    else if !matchesEquippedLight e equippedLightId noun then
      failRes e s ("You don't have \"" ++ noun ++ "\" equipped as a light source.")
    else if alGetD s.player.flags (equippedLightId ++ "_on") false then
      failRes e s "The light is already on."
    else
      let p := { s.player with
                 flags := alSet s.player.flags (equippedLightId ++ "_on") true }
      ⟨e, { s with player := p },
        { success := true,
          message := "You turn on the flashlight. A bright beam illuminates the area." }⟩

/-- `GameEngine.handleExtinguish`. -/
def handleExtinguish (e : Engine) (s : GameSession) (cmd : ParsedCommand) : StepResult :=
  let noun := jsStr cmd.noun
  if noun = "" then failRes e s "Extinguish what?"
  else
    let equippedLightId := jsStr (alGet s.player.equippedItems "light_source")
    if equippedLightId = "" then failRes e s "You don't have a light source equipped."
    else if !matchesEquippedLight e equippedLightId noun then
      failRes e s ("You don't have \"" ++ noun ++ "\" equipped as a light source.")
    else if !alGetD s.player.flags (equippedLightId ++ "_on") false then
      failRes e s "The light is not on."
    else
      let p := { s.player with
                 flags := alSet s.player.flags (equippedLightId ++ "_on") false }
      ⟨e, { s with player := p },
        { success := true,
          message := "You turn off the flashlight. The beam of light disappears." }⟩

/-- JS `noun.split(' ')` (single-space split, empties kept). -/
def splitSpAux : List Char → List Char → List String
  | [], cur => [String.mk cur.reverse]
  | c :: cs, cur =>
    if c = ' ' then String.mk cur.reverse :: splitSpAux cs []
    else splitSpAux cs (c :: cur)

def splitSp (s : String) : List String := splitSpAux s.data []

/-- `GameEngine.handleTurn`: routes `turn on/off X` to light/extinguish. -/
def handleTurn (e : Engine) (s : GameSession) (cmd : ParsedCommand) : StepResult :=
  let noun := jsStr cmd.noun
  if noun = "" then failRes e s "Turn what?"
  else
    let actionPrep := jsStr cmd.preposition
    if actionPrep = "" then
      let parts := splitSp noun
      if parts.length < 2 then failRes e s "Turn what on or off?"
      else
        let action := lowerStr (parts.getD 0 "")
        let itemName := joinWith " " (parts.drop 1)
        if action = "on" then handleLight e s { cmd with noun := some itemName }
        else if action = "off" then handleExtinguish e s { cmd with noun := some itemName }
        else failRes e s "You can only turn things on or off."
    else
      if actionPrep = "on" then handleLight e s { cmd with noun := some noun }
      else if actionPrep = "off" then handleExtinguish e s { cmd with noun := some noun }
      else failRes e s "You can only turn things on or off."

/-- `GameEngine.handleOpen`. -/
def handleOpen (e : Engine) (s : GameSession) (cmd : ParsedCommand) : StepResult :=
  let noun := jsStr cmd.noun
  if noun = "" then failRes e s "Open what?"
  else failRes e s ("You can't open the " ++ noun ++ ".")

/-- `GameEngine.handleClose`. -/
def handleClose (e : Engine) (s : GameSession) (cmd : ParsedCommand) : StepResult :=
  let noun := jsStr cmd.noun
  if noun = "" then failRes e s "Close what?"
  else failRes e s ("You can't close the " ++ noun ++ ".")

/-- `GameEngine.handleAttack`. -/
def handleAttack (e : Engine) (s : GameSession) : StepResult :=
  if !s.inCombat then failRes e s "There's nothing to attack here."
  else ⟨e, s, { success := true, message := "You attack!" }⟩

/-- `GameEngine.handleCast`. -/
def handleCast (e : Engine) (s : GameSession) (cmd : ParsedCommand) : StepResult :=
  let noun := jsStr cmd.noun
  if noun = "" then failRes e s "Cast what spell?"
  else if s.player.mp ≤ 0 then
    failRes e s "You don't have enough mental energy to cast spells."
  else failRes e s ("You don't know a spell called \"" ++ noun ++ "\".")

/-- `GameEngine.handleRest`. -/
def handleRest (e : Engine) (s : GameSession) : StepResult :=
  if s.inCombat then failRes e s "You can't rest during combat!"
  else
    let hpRecovered := min e.config.restHpRecovery (s.player.maxHp - s.player.hp)
    let mpRecovered := min e.config.restMpRecovery (s.player.maxMp - s.player.mp)
    let p := { s.player with hp := s.player.hp + hpRecovered,
                             mp := s.player.mp + mpRecovered }
    ⟨e, { s with player := p },
      { success := true,
        message := "You rest for a while.\nHP recovered: " ++ toString hpRecovered ++
                   "\nMP recovered: " ++ toString mpRecovered }⟩

def helpText : String :=
  "\n**Available Commands:**\n\n**Movement:** go [direction], north, south, east, west, up, down\n**Looking:** look, examine [object]\n**Items:** take [item], drop [item], use [item], inventory\n**Equipment:** equip [item], unequip [item]\n**Light:** turn on [item], turn off [item], light [item], extinguish [item]\n**Interaction:** open [object], close [object]\n**Combat:** attack, cast [spell]\n**Other:** rest, help, restart\n\n**Tips:**\n- Examine everything carefully\n- Equip weapons, armor, accessories, and lights from your inventory\n- Watch your HP and MP\n- Some paths may require items or skills\n- Use flashlights to light up dark areas\n- Use \x27restart\x27 to begin again from the start\n"

/-- `GameEngine.handleHelp`. -/
def handleHelp (e : Engine) (s : GameSession) : StepResult :=
  ⟨e, s, { success := true, message := helpText }⟩

/-- Per-room reset performed by restart: clear every object's `taken` flag
and the room's `visited` state flag. -/
def resetRoom (room : Room) : Room :=
  { room with objects := room.objects.map (fun o => { o with taken := false }),
              state := alSet room.state "visited" false }

/-- `GameEngine.handleRestart`. -/
def handleRestart (e : Engine) (s : GameSession) : StepResult :=
  let p := createNewPlayer e.config s.player.name "ROOM_001"
  let e2 := { e with rooms := e.rooms.map (fun pr => (pr.1, resetRoom pr.2)) }
  ⟨e2, { s with player := p },
    { success := true,
      message := "Game restarted. You awaken once again in the cryogenic chamber..." }⟩

/-- `GameEngine.handleEquip`. -/
def handleEquip (e : Engine) (s : GameSession) (cmd : ParsedCommand) : StepResult :=
  let noun := jsStr cmd.noun
  if noun = "" then failRes e s "Equip what?"
  else
    match s.player.inventory.find? (fun i => invMatches i noun) with
    | none => failRes e s ("You don't have \"" ++ noun ++ "\".")
    | some item =>
      if !item.equippable || jsStr item.equipmentSlot = "" then
        failRes e s ("You can't equip the " ++ item.name ++ ".")
      else
        let slot := jsStr item.equipmentSlot
        let conflictMsg : Option String :=
          match alGet s.player.equippedItems slot with
          | some currentEquipped =>
            if currentEquipped = "" then none
            else
              match s.player.inventory.find? (fun i => i.id = currentEquipped) with
              | some currentItem =>
                some ("You already have " ++ currentItem.name ++
                      " equipped in the " ++ slot ++ " slot. Unequip it first.")
              | none => none
          | none => none
        match conflictMsg with
        | some m => failRes e s m
        | none =>
          let p := { s.player with
                     equippedItems := alSet s.player.equippedItems slot item.id,
                     inventory := removeFirst (fun i => invMatches i noun) s.player.inventory }
          ⟨e, { s with player := p },
            { success := true, message := "You equip the " ++ item.name ++ "." }⟩

/-- The unequip-handler's scan over `Object.entries(equippedItems)`:
the first slot holding a truthy id whose static definition matches the noun. -/
def findEquippedSlot (rooms : List (String × Room)) (noun : String) :
    List (String × String) → Option (String × String)
  | [] => none
  | (slot, itemId) :: rest =>
    if itemId ≠ "" &&
        rooms.any (fun pr => pr.2.objects.any (fun o => o.id = itemId && objMatches o noun)) then
      some (slot, itemId)
    else findEquippedSlot rooms noun rest

/-- Static object-definition lookup across all loaded rooms. -/
def findObjDef (itemId : String) : List (String × Room) → Option RoomObject
  | [] => none
  | (_, room) :: rest =>
    match room.objects.find? (fun o => o.id = itemId) with
    | some o => some o
    | none => findObjDef itemId rest

/-- `GameEngine.handleUnequip`. -/
def handleUnequip (e : Engine) (s : GameSession) (cmd : ParsedCommand) : StepResult :=
  let noun := jsStr cmd.noun
  if noun = "" then failRes e s "Unequip what?"
  else
    match findEquippedSlot e.rooms noun s.player.equippedItems with
    | none => failRes e s ("You don't have \"" ++ noun ++ "\" equipped.")
    | some (foundSlot, equippedItemId) =>
      if foundSlot = "" then failRes e s ("You don't have \"" ++ noun ++ "\" equipped.")
      else
        match findObjDef equippedItemId e.rooms with
        | none => failRes e s "Error: Could not find item data."
        | some obj =>
          let newItem : InventoryItem :=
            { id := obj.id, name := obj.name, description := obj.description,
              quantity := 1, equippable := true, equipmentSlot := obj.equipmentSlot,
              usable := true, weight := 1 }
          let p := { s.player with
                     inventory := s.player.inventory ++ [newItem],
                     equippedItems := alErase s.player.equippedItems foundSlot }
          ⟨e, { s with player := p },
            { success := true, message := "You unequip the " ++ obj.name ++ "." }⟩

/-- The router's verb dispatch (`GameEngine.processCommand`, switch body). -/
def dispatchCommand (e : Engine) (s : GameSession) (cmd : ParsedCommand) : StepResult :=
  match cmd.verb with
  | "look" => handleLook e s cmd
  | "go" => handleGo e s cmd
  | "take" => handleTake e s cmd
  | "drop" => handleDrop e s cmd
  | "examine" => handleLook e s cmd
  | "inventory" => handleInventory e s
  | "use" => handleUse e s cmd
  | "turn" => handleTurn e s cmd
  | "light" => handleLight e s cmd
  | "extinguish" => handleExtinguish e s cmd
  | "open" => handleOpen e s cmd
  | "close" => handleClose e s cmd
  | "attack" => handleAttack e s
  | "cast" => handleCast e s cmd
  | "rest" => handleRest e s
  | "help" => handleHelp e s
  | "restart" => handleRestart e s
  | "equip" => handleEquip e s cmd
  | "unequip" => handleUnequip e s cmd
  | _ => failRes e s ("I don\x27t know how to \"" ++ cmd.verb ++ "\".")

/-- `GameEngine.processCommand`. -/
def processCommand (e : Engine) (s : GameSession) (input : String) : StepResult :=
  let command := parse input
  if !command.valid then
    failRes e s (optStrOr command.errorMessage "I don't understand that command.")
  else dispatchCommand e s command

/-! ## Concrete fixtures used by witnesses and counterexamples -/

def keyObj : RoomObject :=
  { id := "rusty_key", name := "rusty key", description := "An old rusty key.",
    visibility := "always", takeable := true }

def flashlightObj : RoomObject :=
  { id := "flashlight", name := "flashlight", description := "A sturdy flashlight.",
    visibility := "always", takeable := true, equipmentSlot := some "light_source" }

def lampObj : RoomObject :=
  { id := "lamp", name := "lamp", description := "A brass lamp.",
    visibility := "always", takeable := true, equipmentSlot := some "light_source" }

def plaqueObj : RoomObject :=
  { id := "plaque", name := "plaque", description := "A worn plaque.",
    visibility := "always", examineText := "The plaque teaches you a mantra.",
    stateChanges := some [("ability_learned", "mantra")] }

def room1 : Room :=
  { identity := { id := "R1" },
    descriptions :=
      { initial := "R1 initial.", long := "R1 long.", short := "R1 short.",
        visited := "R1 after.", dark := "R1 dark." },
    lighting := { isLit := true },
    exits := [("north", { «to» := "R2", visible := true }),
              ("east", { «to» := "NOWHERE", visible := true })],
    objects := [keyObj, flashlightObj, lampObj, plaqueObj],
    npcs := [],
    state := [("visited", false), ("flooded", true)] }

def room2 : Room :=
  { identity := { id := "R2" },
    descriptions :=
      { initial := "R2 initial.", long := "R2 long.", short := "R2 short.",
        visited := "R2 after.", dark := "R2 dark." },
    lighting := { isLit := true },
    exits := [("south", { «to» := "R1", visible := true }),
              ("down", { «to» := "R3", visible := true }),
              ("east", { «to» := "R4", visible := true })],
    objects := [],
    npcs := [],
    state := [("visited", false)] }

def ghoulNpc : RoomNPC :=
  { id := "ghoul", name := "ghoul", description := "A pale ghoul lurks here.",
    hostile := true, spawnConditions := ["darkness"] }

def room3 : Room :=
  { identity := { id := "R3" },
    descriptions :=
      { initial := "R3 initial.", long := "R3 long.", short := "R3 short.",
        visited := "R3 after.", dark := "It is pitch black down here.",
        dynamicVariants := [("flooded", "R3 is flooded.")] },
    lighting := { isLit := false },
    exits := [("up", { «to» := "R2", visible := true })],
    objects := [],
    npcs := [ghoulNpc],
    state := [("visited", false)] }

def guardNpc : RoomNPC :=
  { id := "guard", name := "guard", description := "A hulking guard stands here.",
    hostile := true, spawnConditions := [] }

def room4 : Room :=
  { identity := { id := "R4" },
    descriptions :=
      { initial := "R4 initial.", long := "R4 long.", short := "R4 short.",
        visited := "R4 after.", dark := "R4 dark." },
    lighting := { isLit := true },
    exits := [("west", { «to» := "R2", visible := true })],
    objects := [],
    npcs := [guardNpc],
    state := [("visited", false)] }

def engine0 : Engine :=
  { rooms := [("R1", room1), ("R2", room2), ("R3", room3), ("R4", room4)],
    config := DEFAULT_CONFIG,
    worldState := [("gate_open", true)] }

def player0 : PlayerState := createNewPlayer DEFAULT_CONFIG "Alice" "R1"

def session0 : GameSession := { player := player0, inCombat := false }

def torchItem : InventoryItem :=
  { id := "torch", name := "torch", description := "A burning torch.", quantity := 1,
    equippable := true, equipmentSlot := some "light_source", usable := true, weight := 1 }

/-- Session whose `light_source` slot is already occupied by the lamp while
a second light source sits in inventory. -/
def sC1 : GameSession :=
  { player := { player0 with inventory := [torchItem],
                             equippedItems := [("light_source", "lamp")] },
    inCombat := false }

def cmdEquipTorch : ParsedCommand :=
  { verb := "equip", noun := some "torch", raw := "equip torch", valid := true }

def cmdGoEast : ParsedCommand :=
  { verb := "go", noun := some "east", raw := "go east", valid := true }

def cmdTakeKey : ParsedCommand :=
  { verb := "take", noun := some "rusty_key", raw := "take rusty_key", valid := true }

def cmdGoNorth : ParsedCommand :=
  { verb := "go", noun := some "north", raw := "go north", valid := true }

/-- A session already marked in-combat, standing in the lit starting room. -/
def sInCombat : GameSession := { player := player0, inCombat := true }

/-- A session standing in R2, whose east exit leads to the guarded room R4. -/
def sAtR2 : GameSession :=
  { player := { player0 with location := "R2" }, inCombat := false }

/-! ## Association-list lemmas -/

theorem alGet_alSet_self {α : Type} (l : List (String × α)) (key : String) (v : α) :
    alGet (alSet l key v) key = some v := by
  induction l with
  | nil => simp [alSet, alGet]
  | cons hd t ih =>
    obtain ⟨hk, hv⟩ := hd
    by_cases hEq : hk = key
    · simp [alSet, alGet, hEq]
    · simp [alSet, alGet, hEq, ih]

theorem alGet_alSet_ne {α : Type} (l : List (String × α)) (k key : String) (v : α)
    (h : k ≠ key) : alGet (alSet l key v) k = alGet l k := by
  induction l with
  | nil => simp [alSet, alGet, Ne.symm h]
  | cons hd t ih =>
    obtain ⟨hk, hv⟩ := hd
    by_cases hEq : hk = key
    · subst hEq
      simp [alSet, alGet, Ne.symm h]
    · simp [alSet, alGet, hEq, ih]

theorem alGet_mapVal {α β : Type} (f : α → β) (l : List (String × α)) (k : String) :
    alGet (l.map (fun p => (p.1, f p.2))) k = (alGet l k).map f := by
  induction l with
  | nil => simp [alGet]
  | cons hd t ih =>
    obtain ⟨hk, hv⟩ := hd
    by_cases hEq : hk = k <;> simp [alGet, hEq, ih]

theorem alGet_mem {α : Type} {l : List (String × α)} {k : String} {v : α}
    (h : alGet l k = some v) : (k, v) ∈ l := by
  induction l with
  | nil => simp [alGet] at h
  | cons hd t ih =>
    obtain ⟨hk, hv⟩ := hd
    by_cases hEq : hk = k
    · subst hEq
      simp [alGet] at h
      simp [h]
    · simp [alGet, hEq] at h
      exact List.mem_cons_of_mem _ (ih h)

/-! ## Per-handler frame lemmas: no handler clears the in-combat mark -/

theorem handleLook_inCombat (e : Engine) (s : GameSession) (cmd : ParsedCommand) :
    (handleLook e s cmd).session.inCombat = s.inCombat := by
  unfold handleLook failRes
  dsimp only
  repeat' split
  all_goals rfl

theorem handleTake_inCombat (e : Engine) (s : GameSession) (cmd : ParsedCommand) :
    (handleTake e s cmd).session.inCombat = s.inCombat := by
  unfold handleTake failRes
  dsimp only
  repeat' split
  all_goals rfl

theorem handleDrop_inCombat (e : Engine) (s : GameSession) (cmd : ParsedCommand) :
    (handleDrop e s cmd).session.inCombat = s.inCombat := by
  unfold handleDrop failRes
  dsimp only
  repeat' split
  all_goals rfl

theorem handleInventory_inCombat (e : Engine) (s : GameSession) :
    (handleInventory e s).session.inCombat = s.inCombat := by
  unfold handleInventory
  repeat' split
  all_goals rfl

theorem handleUse_inCombat (e : Engine) (s : GameSession) (cmd : ParsedCommand) :
    (handleUse e s cmd).session.inCombat = s.inCombat := by
  unfold handleUse failRes
  dsimp only
  repeat' split
  all_goals rfl

theorem handleLight_inCombat (e : Engine) (s : GameSession) (cmd : ParsedCommand) :
    (handleLight e s cmd).session.inCombat = s.inCombat := by
  unfold handleLight failRes
  dsimp only
  repeat' split
  all_goals rfl

theorem handleExtinguish_inCombat (e : Engine) (s : GameSession) (cmd : ParsedCommand) :
    (handleExtinguish e s cmd).session.inCombat = s.inCombat := by
  unfold handleExtinguish failRes
  dsimp only
  repeat' split
  all_goals rfl

theorem handleTurn_inCombat (e : Engine) (s : GameSession) (cmd : ParsedCommand) :
    (handleTurn e s cmd).session.inCombat = s.inCombat := by
  unfold handleTurn failRes
  dsimp only
  repeat' split
  all_goals first
    | rfl
    | apply handleLight_inCombat
    | apply handleExtinguish_inCombat

theorem handleOpen_inCombat (e : Engine) (s : GameSession) (cmd : ParsedCommand) :
    (handleOpen e s cmd).session.inCombat = s.inCombat := by
  unfold handleOpen failRes
  dsimp only
  repeat' split
  all_goals rfl

theorem handleClose_inCombat (e : Engine) (s : GameSession) (cmd : ParsedCommand) :
    (handleClose e s cmd).session.inCombat = s.inCombat := by
  unfold handleClose failRes
  dsimp only
  repeat' split
  all_goals rfl

theorem handleAttack_inCombat (e : Engine) (s : GameSession) :
    (handleAttack e s).session.inCombat = s.inCombat := by
  unfold handleAttack failRes
  repeat' split
  all_goals rfl

theorem handleCast_inCombat (e : Engine) (s : GameSession) (cmd : ParsedCommand) :
    (handleCast e s cmd).session.inCombat = s.inCombat := by
  unfold handleCast failRes
  dsimp only
  repeat' split
  all_goals rfl

theorem handleRest_inCombat (e : Engine) (s : GameSession) :
    (handleRest e s).session.inCombat = s.inCombat := by
  unfold handleRest failRes
  dsimp only
  repeat' split
  all_goals rfl

theorem handleHelp_inCombat (e : Engine) (s : GameSession) :
    (handleHelp e s).session.inCombat = s.inCombat := rfl

theorem handleRestart_inCombat (e : Engine) (s : GameSession) :
    (handleRestart e s).session.inCombat = s.inCombat := rfl

theorem handleEquip_inCombat (e : Engine) (s : GameSession) (cmd : ParsedCommand) :
    (handleEquip e s cmd).session.inCombat = s.inCombat := by
  unfold handleEquip failRes
  dsimp only
  repeat' split
  all_goals rfl

theorem handleUnequip_inCombat (e : Engine) (s : GameSession) (cmd : ParsedCommand) :
    (handleUnequip e s cmd).session.inCombat = s.inCombat := by
  unfold handleUnequip failRes
  dsimp only
  repeat' split
  all_goals rfl

theorem handleGo_inCombat_mono (e : Engine) (s : GameSession) (cmd : ParsedCommand)
    (h : s.inCombat = true) : (handleGo e s cmd).session.inCombat = true := by
  unfold handleGo failRes
  dsimp only
  repeat' split
  all_goals simp [h]

theorem dispatchCommand_inCombat_mono (e : Engine) (s : GameSession) (cmd : ParsedCommand)
    (h : s.inCombat = true) : (dispatchCommand e s cmd).session.inCombat = true := by
  unfold dispatchCommand
  split
  all_goals first
    | exact handleGo_inCombat_mono e s cmd h
    | simp [failRes, handleLook_inCombat, handleTake_inCombat, handleDrop_inCombat,
            handleInventory_inCombat, handleUse_inCombat, handleTurn_inCombat,
            handleLight_inCombat, handleExtinguish_inCombat, handleOpen_inCombat,
            handleClose_inCombat, handleAttack_inCombat, handleCast_inCombat,
            handleRest_inCombat, handleHelp_inCombat, handleRestart_inCombat,
            handleEquip_inCombat, handleUnequip_inCombat, h]

/-! ## Claim theorems -/

/-- C1: the claim says an `equip` into an already-occupied slot fails with no
side effects.  The code's occupied-slot guard only fires when the occupying
item is *also* present in inventory, which never holds in the normal flow
because equipping removes the item from inventory: here the slot is occupied
by the lamp (not in inventory), yet equipping the torch succeeds, overwrites
the slot and discards the lamp's id entirely.  This contradicts the handler's
own "Unequip it first." error path, so the claim documents the intent and the
code is the slip. -/
theorem equip_occupied_slot_overwrites :
    alGet sC1.player.equippedItems "light_source" = some "lamp" ∧
    sC1.player.inventory.all (fun i => i.id ≠ "lamp") = true ∧
    (handleEquip engine0 sC1 cmdEquipTorch).result.success = true ∧
    alGet (handleEquip engine0 sC1 cmdEquipTorch).session.player.equippedItems
        "light_source" = some "torch" ∧
    (handleEquip engine0 sC1 cmdEquipTorch).session.player.inventory = [] := by
  decide

/-- C2 (counterexample): a `go` through an exit whose destination id is absent
from the room store restores the location, but the player state is *not*
fully restored: the dangling destination id stays appended to
`visitedRooms`. -/
theorem go_dangling_retains_visited_cex :
    (handleGo engine0 session0 cmdGoEast).result.success = false ∧
    (handleGo engine0 session0 cmdGoEast).result.message =
      "Error: That room doesn't exist." ∧
    (handleGo engine0 session0 cmdGoEast).session.player.location = "R1" ∧
    session0.player.visitedRooms = [] ∧
    (handleGo engine0 session0 cmdGoEast).session.player.visitedRooms = ["NOWHERE"] ∧
    (handleGo engine0 session0 cmdGoEast).session.player ≠ session0.player := by
  decide

/-- C2 (amended): when the commanded direction has an exit that passes the
gate but whose destination id is not in the room store, `handleGo` fails with
the internal-error message, leaves the engine untouched, and restores the
player's location — but the destination id appended to `visitedRooms` is not
rolled back; every other player field is unchanged. -/
theorem go_dangling_rolls_back_location (e : Engine) (s : GameSession) (cmd : ParsedCommand)
    (room : Room) (ex : RoomExit)
    (hroom : getCurrentRoom e s = some room)
    (hdir : lowerStr (jsStr cmd.noun) ≠ "")
    (hexit : alGet room.exits (lowerStr (jsStr cmd.noun)) = some ex)
    (hpass : (canUseExit e ex s.player).allowed = true)
    (hdangling : getRoom e ex.«to» = none) :
    (handleGo e s cmd).engine = e ∧
    (handleGo e s cmd).result =
      { success := false, message := "Error: That room doesn't exist." } ∧
    (handleGo e s cmd).session =
      { s with player :=
          { s.player with visitedRooms :=
              if s.player.visitedRooms.contains ex.«to» then s.player.visitedRooms
              else s.player.visitedRooms ++ [ex.«to»] } } := by
  simp only [handleGo, hroom, hexit, hpass, hdangling, failRes, if_neg hdir]
  refine ⟨rfl, rfl, ?_⟩
  by_cases hc : ex.«to» ∈ s.player.visitedRooms <;> simp [hc]

theorem go_dangling_rolls_back_location_witness :
    (handleGo engine0 session0 cmdGoEast).engine = engine0 :=
  (go_dangling_rolls_back_location engine0 session0 cmdGoEast room1
    { «to» := "NOWHERE", visible := true } (by decide) (by decide) (by decide)
    (by decide) (by decide)).1

/-- C3 (counterexample): the claim says a non-combat command issued while the
session is in-combat cannot move the player out of the room.  `handleGo` has
no in-combat guard: from an in-combat session, `go north` succeeds and moves
the player to the adjacent room (the in-combat mark itself stays set). -/
theorem inCombat_go_moves_player_cex :
    sInCombat.inCombat = true ∧
    sInCombat.player.location = "R1" ∧
    (processCommand engine0 sInCombat "go north").result.success = true ∧
    (processCommand engine0 sInCombat "go north").session.player.location = "R2" ∧
    (processCommand engine0 sInCombat "go north").session.inCombat = true := by
  decide

/-- C3 (amended): once a session is marked in-combat, no command processed by
`processCommand` ever clears the mark (no handler writes `inCombat := false`),
but combat does not block movement: non-combat commands are dispatched
normally, and in particular `go` can move the player out of the room while
the in-combat mark persists. -/
theorem processCommand_preserves_inCombat (e : Engine) (s : GameSession) (input : String)
    (h : s.inCombat = true) :
    (processCommand e s input).session.inCombat = true := by
  unfold processCommand
  dsimp only
  split
  · simp [failRes, h]
  · exact dispatchCommand_inCombat_mono e s (parse input) h

theorem processCommand_preserves_inCombat_witness :
    (processCommand engine0 sInCombat "go north").session.inCombat = true :=
  processCommand_preserves_inCombat engine0 sInCombat "go north" (by decide)

/-- C4: the restart command replaces the session's player with a freshly
constructed player at the starting room ROOM_001 (base hp/mp, level 1, equal
baseline stats, empty inventory, skills, flags and visitedRooms) and, for
every loaded room in the store, clears every object's taken flag and the
room's visited state flag. -/
theorem restart_resets_player_and_world (e : Engine) (s : GameSession) :
    (handleRestart e s).session.player =
      createNewPlayer e.config s.player.name "ROOM_001" ∧
    (handleRestart e s).session.player.location = "ROOM_001" ∧
    (handleRestart e s).session.player.hp = e.config.baseHp ∧
    (handleRestart e s).session.player.maxHp = e.config.baseHp ∧
    (handleRestart e s).session.player.mp = e.config.baseMp ∧
    (handleRestart e s).session.player.maxMp = e.config.baseMp ∧
    (handleRestart e s).session.player.level = 1 ∧
    (handleRestart e s).session.player.stats.Physical =
      (handleRestart e s).session.player.stats.Mental ∧
    (handleRestart e s).session.player.stats.Mental =
      (handleRestart e s).session.player.stats.Resilience ∧
    (handleRestart e s).session.player.inventory = [] ∧
    (handleRestart e s).session.player.skills = [] ∧
    (handleRestart e s).session.player.flags = [] ∧
    (handleRestart e s).session.player.visitedRooms = [] ∧
    ∀ pr ∈ (handleRestart e s).engine.rooms,
      (∀ o ∈ pr.2.objects, o.taken = false) ∧
      alGet pr.2.state "visited" = some false := by
  refine ⟨rfl, rfl, rfl, rfl, rfl, rfl, rfl, rfl, rfl, rfl, rfl, rfl, rfl, ?_⟩
  intro pr hpr
  simp only [handleRestart] at hpr
  rw [List.mem_map] at hpr
  obtain ⟨q, hq, rfl⟩ := hpr
  constructor
  · intro o ho
    simp only [resetRoom] at ho
    rw [List.mem_map] at ho
    obtain ⟨o0, ho0, rfl⟩ := ho
    rfl
  · simp [resetRoom, alGet_alSet_self]

theorem restart_resets_player_and_world_witness :
    (handleRestart engine0 session0).session.player =
      createNewPlayer DEFAULT_CONFIG "Alice" "ROOM_001" :=
  (restart_resets_player_and_world engine0 session0).1

/-- C9: restart changes only the objects' taken flags, the rooms' visited
state flag and the session's player: the global worldState map, the session's
combat fields, and every other per-room state flag (such as ability-learned
flags set by examine) keep the same values, and every non-taken object field
and every other room field is preserved. -/
theorem restart_frame (e : Engine) (s : GameSession) :
    (handleRestart e s).engine.worldState = e.worldState ∧
    (handleRestart e s).engine.config = e.config ∧
    (handleRestart e s).session.inCombat = s.inCombat ∧
    (handleRestart e s).session.currentEnemy = s.currentEnemy ∧
    (handleRestart e s).session.player =
      createNewPlayer e.config s.player.name "ROOM_001" ∧
    ∀ id room, alGet e.rooms id = some room →
      alGet (handleRestart e s).engine.rooms id = some (resetRoom room) ∧
      (resetRoom room).identity = room.identity ∧
      (resetRoom room).descriptions = room.descriptions ∧
      (resetRoom room).lighting = room.lighting ∧
      (resetRoom room).exits = room.exits ∧
      (resetRoom room).npcs = room.npcs ∧
      (resetRoom room).objects = room.objects.map (fun o => { o with taken := false }) ∧
      ∀ k, k ≠ "visited" → alGet (resetRoom room).state k = alGet room.state k := by
  refine ⟨rfl, rfl, rfl, rfl, rfl, ?_⟩
  intro id room hroom
  refine ⟨?_, rfl, rfl, rfl, rfl, rfl, rfl, ?_⟩
  · show alGet (e.rooms.map (fun pr => (pr.1, resetRoom pr.2))) id = some (resetRoom room)
    rw [alGet_mapVal, hroom]
    rfl
  · intro k hk
    simp only [resetRoom]
    exact alGet_alSet_ne room.state k "visited" false hk

theorem restart_frame_witness :
    alGet (handleRestart engine0 session0).engine.rooms "R1" = some (resetRoom room1) ∧
    alGet (resetRoom room1).state "flooded" = alGet room1.state "flooded" := by
  have h := (restart_frame engine0 session0).2.2.2.2.2 "R1" room1 (by decide)
  exact ⟨h.1, h.2.2.2.2.2.2.2 "flooded" (by decide)⟩

/-- Every object in the visible-objects listing is untaken. -/
theorem visibleObjects_taken_false (r : Room) (hl : Bool) (o : RoomObject)
    (h : o ∈ visibleObjects r hl) : o.taken = false := by
  unfold visibleObjects at h
  rw [List.mem_filter] at h
  have h2 := h.2
  simp only [Bool.and_eq_true, Bool.not_eq_true'] at h2
  exact h2.1

/-- Drop never touches the engine (rooms or world state). -/
theorem handleDrop_engine (e : Engine) (s : GameSession) (cmd : ParsedCommand) :
    (handleDrop e s cmd).engine = e := by
  unfold handleDrop failRes
  dsimp only
  repeat' split
  all_goals rfl

/-- C5: `hasLight` holds exactly when the room's own `isLit` is set or the
item equipped in the `light_source` slot has its `<itemId>_on` player flag
set; and whenever `hasLight` is false, `getRoomDescription` returns exactly
the room's dark text — no object list, no exits line, no NPC paragraphs. -/
theorem dark_room_shows_dark_text (room : Room) (player : PlayerState) (verbose : Bool) :
    (hasLight room player = true ↔
      (room.lighting.isLit = true ∨
        ∃ lightId, alGet player.equippedItems "light_source" = some lightId ∧
          lightId ≠ "" ∧ alGetD player.flags (lightId ++ "_on") false = true)) ∧
    (hasLight room player = false →
      getRoomDescription room player verbose = room.descriptions.dark) := by
  constructor
  · constructor
    · intro h
      by_cases hLit : room.lighting.isLit
      · exact Or.inl hLit
      · right
        cases hem : alGet player.equippedItems "light_source" with
        | none => simp [hasLight, hLit, hem] at h
        | some lid =>
          simp only [hasLight] at h
          rw [hem] at h
          simp [hLit] at h
          exact ⟨lid, rfl, h.1, h.2⟩
    · intro h
      unfold hasLight
      rcases h with hLit | ⟨lid, hget, hne, hflag⟩
      · simp [hLit]
      · by_cases hLit : room.lighting.isLit
        · simp [hLit]
        · simp [hLit, hget, hne, hflag]
  · intro h
    unfold getRoomDescription
    simp [h]

theorem dark_room_shows_dark_text_witness :
    hasLight room3 player0 = false ∧
    getRoomDescription room3 player0 false = "It is pitch black down here." :=
  ⟨by decide, (dark_room_shows_dark_text room3 player0 false).2 (by decide)⟩

/-- C6: a successful take appends exactly one inventory entry of quantity 1,
sets the matched object's taken flag in the stored room, and the taken object
is excluded from the visible listing under any lighting; in general every
listed object is untaken, and drop leaves the engine (hence the taken flag
and the room listing) untouched — it removes from inventory only. -/
theorem take_marks_taken_and_listing_excludes (e : Engine) (s : GameSession)
    (cmd : ParsedCommand) (room : Room) (obj : RoomObject)
    (hroom : getCurrentRoom e s = some room)
    (hnoun : jsStr cmd.noun ≠ "")
    (hfind : room.objects.find? (takePred (jsStr cmd.noun)) = some obj) :
    ((handleTake e s cmd).result.success = true ∧
     (handleTake e s cmd).session.player.inventory =
       s.player.inventory ++ [mkTakenItem obj] ∧
     (mkTakenItem obj).quantity = 1 ∧
     alGet (handleTake e s cmd).engine.rooms s.player.location =
       some { room with objects := setTakenFirst (takePred (jsStr cmd.noun)) room.objects } ∧
     ∀ hl, { obj with taken := true } ∉
       visibleObjects
         { room with objects := setTakenFirst (takePred (jsStr cmd.noun)) room.objects } hl) ∧
    (∀ (r : Room) (hl : Bool) (o : RoomObject), o ∈ visibleObjects r hl → o.taken = false) ∧
    (∀ (e2 : Engine) (s2 : GameSession) (cmd2 : ParsedCommand),
      (handleDrop e2 s2 cmd2).engine = e2) := by
  have hp := List.find?_some hfind
  have htaken : obj.taken = false := by
    simp only [takePred, Bool.and_eq_true, Bool.not_eq_true'] at hp
    exact hp.1.2
  refine ⟨?_, visibleObjects_taken_false, handleDrop_engine⟩
  simp only [handleTake, hroom, hfind, failRes, if_neg hnoun, htaken]
  refine ⟨rfl, rfl, rfl, ?_, ?_⟩
  · exact alGet_alSet_self e.rooms s.player.location _
  · intro hl hmem
    have := visibleObjects_taken_false _ hl _ hmem
    simp at this

theorem take_marks_taken_and_listing_excludes_witness :
    (handleTake engine0 session0 cmdTakeKey).result.success = true ∧
    (handleTake engine0 session0 cmdTakeKey).session.player.inventory =
      session0.player.inventory ++ [mkTakenItem keyObj] :=
  ⟨(take_marks_taken_and_listing_excludes engine0 session0 cmdTakeKey room1 keyObj
      (by decide) (by decide) (by decide)).1.1,
   (take_marks_taken_and_listing_excludes engine0 session0 cmdTakeKey room1 keyObj
      (by decide) (by decide) (by decide)).1.2.1⟩

/-- `findPrep` returns the position of the first preposition: the returned
index points at the token, the token is a preposition, and no earlier token
is one. -/
theorem findPrep_loc (ts : List String) (n i : Nat) (p : String)
    (h : findPrep ts n = some (i, p)) :
    n ≤ i ∧ ts.get? (i - n) = some p ∧ PREPOSITIONS.contains p = true ∧
    ∀ j q, j < i - n → ts.get? j = some q → PREPOSITIONS.contains q = false := by
  induction ts generalizing n with
  | nil => simp [findPrep] at h
  | cons t rest ih =>
    by_cases hc : PREPOSITIONS.contains t
    · rw [findPrep, if_pos hc] at h
      obtain ⟨h1, h2⟩ : i = n ∧ t = p := by
        have := Option.some.inj h
        exact ⟨(Prod.mk.inj this).1.symm, (Prod.mk.inj this).2⟩
      subst h1
      subst h2
      refine ⟨le_refl _, ?_, hc, ?_⟩
      · simp
      · intro j q hj _
        omega
    · rw [findPrep, if_neg hc] at h
      obtain ⟨hni, hget, hP, hfirst⟩ := ih (n + 1) h
      refine ⟨by omega, ?_, hP, ?_⟩
      · have heq : i - n = (i - (n + 1)) + 1 := by omega
        rw [heq]
        simpa using hget
      · intro j q hj hq
        cases j with
        | zero =>
          have : q = t := by simpa using hq.symm
          subst this
          simpa using hc
        | succ j2 =>
          exact hfirst j2 q (by omega) (by simpa using hq)

/-- C7: for an input whose first token resolves to a recognized
non-direction verb, after article removal the remaining tokens are split at
the first preposition occurrence: interior occurrence gives noun = tokens
before, indirect object = tokens after; occurrence at position 0 is recorded
as the preposition with the following tokens as the noun and no indirect
object; no occurrence joins everything into the noun.  The final conjunct
states that the split point really is the first preposition, so a second
occurrence is never a split point. -/
theorem parse_prep_split (input firstToken v : String) (rest : List String)
    (htok : tokenize (trimWs (lowerStr input)) = firstToken :: rest)
    (hverb : alGet VERB_SYNONYMS firstToken = some v)
    (hgo : strStartsWith v "go " = false) :
    (parse input).valid = true ∧
    (parse input).verb = v ∧
    (match findPrep (rest.filter (fun t => !ARTICLES.contains t)) 0 with
     | some (i, p) =>
       if 0 < i then
         (parse input).noun =
           strToOpt (joinWith " " ((rest.filter (fun t => !ARTICLES.contains t)).take i)) ∧
         (parse input).preposition = some p ∧
         (parse input).indirectObject =
           strToOpt (joinWith " " ((rest.filter (fun t => !ARTICLES.contains t)).drop (i + 1)))
       else
         (parse input).noun =
           strToOpt (joinWith " " ((rest.filter (fun t => !ARTICLES.contains t)).drop 1)) ∧
         (parse input).preposition = some p ∧
         (parse input).indirectObject = none
     | none =>
       (parse input).noun =
         strToOpt (joinWith " " (rest.filter (fun t => !ARTICLES.contains t))) ∧
       (parse input).preposition = none ∧
       (parse input).indirectObject = none) ∧
    (∀ i p, findPrep (rest.filter (fun t => !ARTICLES.contains t)) 0 = some (i, p) →
      (rest.filter (fun t => !ARTICLES.contains t)).get? i = some p ∧
      PREPOSITIONS.contains p = true ∧
      ∀ j q, j < i → (rest.filter (fun t => !ARTICLES.contains t)).get? j = some q →
        PREPOSITIONS.contains q = false) := by
  have hne : trimWs (lowerStr input) ≠ "" := by
    intro hemp
    rw [hemp] at htok
    simp [tokenize, tokenizeAux] at htok
  have hfirst : ∀ i p,
      findPrep (rest.filter (fun t => !ARTICLES.contains t)) 0 = some (i, p) →
      (rest.filter (fun t => !ARTICLES.contains t)).get? i = some p ∧
      PREPOSITIONS.contains p = true ∧
      ∀ j q, j < i → (rest.filter (fun t => !ARTICLES.contains t)).get? j = some q →
        PREPOSITIONS.contains q = false := by
    intro i p hfp
    obtain ⟨_, hget, hP, hf⟩ := findPrep_loc _ 0 i p hfp
    simp only [Nat.sub_zero] at hget hf
    exact ⟨hget, hP, hf⟩
  simp only [parse, if_neg hne, htok, hverb, hgo]
  have hj : joinWith " " ([] : List String) = "" := rfl
  cases rest with
  | nil =>
    simp [findPrep, strToOpt, hj]
  | cons r0 rtail =>
    simp only [List.isEmpty_cons, if_false]
    cases hOT : (r0 :: rtail).filter (fun t => !ARTICLES.contains t) with
    | nil =>
      simp [hOT, findPrep, strToOpt, hj]
    | cons o0 otail =>
      rw [hOT] at hfirst
      cases hfp : findPrep (o0 :: otail) 0 with
      | none =>
        refine ⟨rfl, rfl, ⟨rfl, rfl, rfl⟩, ?_⟩
        intro i p h
        exact absurd h (by simp)
      | some ip =>
        obtain ⟨i, p⟩ := ip
        by_cases hi : 0 < i
        · simp only [hi, if_true]
          refine ⟨rfl, rfl, ⟨rfl, rfl, rfl⟩, ?_⟩
          intro i1 p1 h12
          obtain ⟨h1, h2⟩ := Prod.mk.inj (Option.some.inj h12)
          subst h1
          subst h2
          exact hfirst _ _ hfp
        · simp only [hi, if_false]
          refine ⟨rfl, rfl, ⟨rfl, rfl, rfl⟩, ?_⟩
          intro i1 p1 h12
          obtain ⟨h1, h2⟩ := Prod.mk.inj (Option.some.inj h12)
          subst h1
          subst h2
          exact hfirst _ _ hfp

theorem parse_prep_split_witness :
    (parse "put the gem in the slot").valid = true ∧
    (parse "put the gem in the slot").verb = "put" :=
  ⟨(parse_prep_split "put the gem in the slot" "put" "put"
      ["the", "gem", "in", "the", "slot"] (by decide) (by decide) (by decide)).1,
   (parse_prep_split "put the gem in the slot" "put" "put"
      ["the", "gem", "in", "the", "slot"] (by decide) (by decide) (by decide)).2.1⟩

/-- C8: every key of the verb-synonym table parsed with a trailing noun token
yields a valid command whose verb is the canonical verb of that key
(direction keys resolving to verb `go` with the direction as noun), so any
two synonym keys of the same verb parse to the same verb; and any first token
outside the table yields an invalid result whose error message names that
token. -/
theorem verb_synonyms_canonical :
    (∀ kv ∈ VERB_SYNONYMS,
      (parse (kv.1 ++ " foo")).valid = true ∧
      (parse (kv.1 ++ " foo")).verb = (if strStartsWith kv.2 "go " then "go" else kv.2) ∧
      (strStartsWith kv.2 "go " = true →
        (parse (kv.1 ++ " foo")).verb = "go" ∧
        (parse (kv.1 ++ " foo")).noun = some ((tokenize kv.2).getD 1 ""))) ∧
    (∀ k1 k2 v, (k1, v) ∈ VERB_SYNONYMS → (k2, v) ∈ VERB_SYNONYMS →
      (parse (k1 ++ " foo")).verb = (parse (k2 ++ " foo")).verb) ∧
    (∀ input t rest, tokenize (trimWs (lowerStr input)) = t :: rest →
      alGet VERB_SYNONYMS t = none →
      parse input =
        { verb := t, raw := input, valid := false,
          errorMessage := some ("I don't know how to \"" ++ t ++ "\".") }) := by
  have part1 : ∀ kv ∈ VERB_SYNONYMS,
      (parse (kv.1 ++ " foo")).valid = true ∧
      (parse (kv.1 ++ " foo")).verb = (if strStartsWith kv.2 "go " then "go" else kv.2) ∧
      (strStartsWith kv.2 "go " = true →
        (parse (kv.1 ++ " foo")).verb = "go" ∧
        (parse (kv.1 ++ " foo")).noun = some ((tokenize kv.2).getD 1 "")) := by
    decide
  refine ⟨part1, ?_, ?_⟩
  · intro k1 k2 v h1 h2
    have a1 := (part1 (k1, v) h1).2.1
    have a2 := (part1 (k2, v) h2).2.1
    rw [a1, a2]
  · intro input t rest htok hnone
    have hne : trimWs (lowerStr input) ≠ "" := by
      intro hemp
      rw [hemp] at htok
      simp [tokenize, tokenizeAux] at htok
    simp [parse, if_neg hne, htok, hnone]

theorem verb_synonyms_canonical_witness :
    (parse "grab foo").verb = "take" ∧
    (parse "grab foo").verb = (parse "get foo").verb ∧
    (parse "frobnicate x").valid = false :=
  ⟨by
    have h := (verb_synonyms_canonical.1 ("grab", "take") (by decide)).2.1
    simpa using h,
   verb_synonyms_canonical.2.1 "grab" "get" "take" (by decide) (by decide),
   by
    have h := verb_synonyms_canonical.2.2 "frobnicate x" "frobnicate" ["x"]
      (by decide) (by decide)
    rw [h]⟩

/-- Variant selection for an already-visited room never picks `initial`. -/
theorem selectVariant_visited (r : Room) (p : PlayerState) (verbose : Bool) (hl : Bool)
    (hv : p.visitedRooms.contains r.identity.id = true) :
    selectVariant r p verbose hl = r.descriptions.long ∨
    selectVariant r p verbose hl = strOr r.descriptions.visited r.descriptions.short := by
  simp only [selectVariant, hv]
  cases h1 : (!r.lighting.isLit && hl)
  · cases verbose
    · simp [h1]
    · simp [h1]
  · simp [h1]

theorem selectVariant_lit_visited (r : Room) (p : PlayerState) (hl : Bool)
    (hlit : r.lighting.isLit = true)
    (hv : p.visitedRooms.contains r.identity.id = true) :
    selectVariant r p false hl = strOr r.descriptions.visited r.descriptions.short := by
  have hmem : r.identity.id ∈ p.visitedRooms := by simpa using hv
  simp [selectVariant, hlit, hmem]

/-- C10: a successful `go` appends the destination id to `visitedRooms`
before the destination description is assembled, so the description is built
for a player that has already visited the room: for a naturally lit
destination the variant selection yields the `visited` text (falling back to
`short`), never `initial`.  This holds for every successful arrival: when no
hostile NPC spawns the message is exactly the travel text plus that
description, and when one spawns the message is the same description followed
by the attack line while the session enters combat.  The final conjunct shows
the variant selection of any room already in `visitedRooms` can only yield
`long` or `visited`-or-`short`, so the `initial` variant requires a room
absent from `visitedRooms` (a plain look in an unvisited room). -/
theorem go_uses_visited_variant (e : Engine) (s : GameSession) (cmd : ParsedCommand)
    (room newRoom : Room) (ex : RoomExit)
    (hwf : ∀ pr ∈ e.rooms, pr.2.identity.id = pr.1)
    (hroom : getCurrentRoom e s = some room)
    (hdir : lowerStr (jsStr cmd.noun) ≠ "")
    (hexit : alGet room.exits (lowerStr (jsStr cmd.noun)) = some ex)
    (hpass : (canUseExit e ex s.player).allowed = true)
    (hdest : getRoom e ex.«to» = some newRoom)
    (hlit : newRoom.lighting.isLit = true) :
    (handleGo e s cmd).result.success = true ∧
    (handleGo e s cmd).session.player.visitedRooms.contains newRoom.identity.id = true ∧
    selectVariant newRoom (handleGo e s cmd).session.player false
        (hasLight newRoom (handleGo e s cmd).session.player) =
      strOr newRoom.descriptions.visited newRoom.descriptions.short ∧
    ((handleGo e s cmd).result.combatTriggered = false →
      (handleGo e s cmd).result.message =
        (if ex.travelText = "" then "" else ex.travelText ++ "\n\n") ++
          getRoomDescription newRoom (handleGo e s cmd).session.player false) ∧
    ((handleGo e s cmd).result.combatTriggered = true →
      ∃ npc, npc ∈ newRoom.npcs ∧ npc.hostile = true ∧
        checkNpcSpawnConditions npc.spawnConditions newRoom
          ((handleGo e s cmd).session.player) = true ∧
        (handleGo e s cmd).session.inCombat = true ∧
        (handleGo e s cmd).session.currentEnemy = some npc.id ∧
        (handleGo e s cmd).result.message =
          (if ex.travelText = "" then "" else ex.travelText ++ "\n\n") ++
            getRoomDescription newRoom ((handleGo e s cmd).session.player) false ++
            "\n\n**" ++ npc.name ++ " attacks!**") ∧
    (∀ (r : Room) (p : PlayerState) (verbose : Bool) (hl : Bool),
      p.visitedRooms.contains r.identity.id = true →
      selectVariant r p verbose hl = r.descriptions.long ∨
      selectVariant r p verbose hl = strOr r.descriptions.visited r.descriptions.short) := by
  have hid : newRoom.identity.id = ex.«to» := hwf (ex.«to», newRoom) (alGet_mem hdest)
  simp only [handleGo, hroom, hexit, hpass, hdest, if_neg hdir, Bool.not_true,
    Bool.false_eq_true, if_false]
  split
  · -- hostile NPC found: combat triggered
    rename_i npc hF
    have hp := List.find?_some hF
    rw [Bool.and_eq_true] at hp
    refine ⟨rfl, ?_, ?_, ?_, ?_, selectVariant_visited⟩
    · rw [hid]
      by_cases hc : ex.«to» ∈ s.player.visitedRooms <;> simp [hc]
    · apply selectVariant_lit_visited _ _ _ hlit
      rw [hid]
      by_cases hc : ex.«to» ∈ s.player.visitedRooms <;> simp [hc]
    · intro h
      simp at h
    · intro _
      exact ⟨npc, List.mem_of_find?_eq_some hF, hp.1, hp.2, rfl, rfl, rfl⟩
  · -- no hostile NPC: plain arrival
    refine ⟨rfl, ?_, ?_, ?_, ?_, selectVariant_visited⟩
    · rw [hid]
      by_cases hc : ex.«to» ∈ s.player.visitedRooms <;> simp [hc]
    · apply selectVariant_lit_visited _ _ _ hlit
      rw [hid]
      by_cases hc : ex.«to» ∈ s.player.visitedRooms <;> simp [hc]
    · intro _
      rfl
    · intro h
      simp at h


theorem go_uses_visited_variant_witness :
    (handleGo engine0 session0 cmdGoNorth).result.success = true ∧
    (handleGo engine0 session0 cmdGoNorth).session.player.visitedRooms.contains
      room2.identity.id = true ∧
    (handleGo engine0 sAtR2 cmdGoEast).session.inCombat = true := by
  have h1 := go_uses_visited_variant engine0 session0 cmdGoNorth room1 room2
    { «to» := "R2", visible := true } (by decide) (by decide) (by decide)
    (by decide) (by decide) (by decide) (by decide)
  have h2 := go_uses_visited_variant engine0 sAtR2 cmdGoEast room2 room4
    { «to» := "R4", visible := true } (by decide) (by decide) (by decide)
    (by decide) (by decide) (by decide) (by decide)
  obtain ⟨npc, _, _, _, hic, _, _⟩ := h2.2.2.2.2.1 (by decide)
  exact ⟨h1.1, h1.2.1, hic⟩
